import Mathlib

/-!
Verification of the aggregation and derived-metric pipeline of the
Seattle weather dashboard (src/app.py).  The script loads a dated weather
table, filters it by a set of selected calendar years, and computes
scalar summaries, a per-category weather breakdown with rounded
percentages, and a 7-day trailing wind average grouped by year.

The embedding works over lists of records with rational-valued numeric
fields.  Names follow the script variables (YEARS, avg_temp,
total_precip, avg_wind, rainy_days, total_days, weather_counts,
wind_avg_7d) and the spec operation names (filter_by_years,
rolling_wind_average) where the script has no function name.
-/

/-- A calendar date, unique per record, compared lexicographically. -/
structure Date where
  year : Nat
  month : Nat
  day : Nat
deriving DecidableEq, Inhabited

/-- Lexicographic order on dates (year, then month, then day). -/
def dateLe (a b : Date) : Prop :=
  a.year < b.year ∨ (a.year = b.year ∧
    (a.month < b.month ∨ (a.month = b.month ∧ a.day ≤ b.day)))

instance : DecidableRel dateLe := by
  intro a b
  unfold dateLe
  infer_instance

/-- One row of the weather table: columns date, precipitation, temp_max,
temp_min, wind, weather (src/app.py uses the seattle_weather table). -/
structure WeatherRecord where
  date : Date
  precipitation : ℚ
  temp_max : ℚ
  temp_min : ℚ
  wind : ℚ
  weather : String
deriving DecidableEq, Inhabited

/-- Arithmetic mean of a list of rationals (pandas .mean; 0 on empty,
standing in for the NaN pandas produces there). -/
def mean (xs : List ℚ) : ℚ := xs.sum / (xs.length : ℚ)

/-- Order on records by date, used by df.sort_values applied to the
date column. -/
def recLe (a b : WeatherRecord) : Prop := dateLe a.date b.date

instance : DecidableRel recLe := by
  intro a b
  unfold recLe
  infer_instance

/-- The filtered dataset is in date order (WeatherDataset is ordered by
date and, by the order-preservation invariant, so is every filtrate). -/
def SortedByDate (l : List WeatherRecord) : Prop := l.Sorted recLe

instance (l : List WeatherRecord) : Decidable (SortedByDate l) :=
  List.decidableSorted l

/-- src/app.py line 50: YEARS = sorted(full_df["date"].dt.year.unique()). -/
def YEARS (full_df : List WeatherRecord) : List Nat :=
  List.insertionSort (fun a b => a ≤ b)
    ((full_df.map (fun r => r.date.year)).dedup)

/-- src/app.py line 62: df = full_df[full_df["date"].dt.year.isin(selected_years)]. -/
def filter_by_years (full_df : List WeatherRecord) (selected_years : List Nat) :
    List WeatherRecord :=
  full_df.filter (fun r => decide (r.date.year ∈ selected_years))

/-- src/app.py line 73: avg_temp = df[["temp_max", "temp_min"]].mean().mean()
(the mean over the two column means). -/
def avg_temp (df : List WeatherRecord) : ℚ :=
  mean [mean (df.map (fun r => r.temp_max)), mean (df.map (fun r => r.temp_min))]

/-- Modelled from the spec: avg_temp as the spec words it, the mean of all
temp_max and temp_min values pooled together over the filtered set. -/
def pooled_avg_temp (df : List WeatherRecord) : ℚ :=
  mean (df.map (fun r => r.temp_max) ++ df.map (fun r => r.temp_min))

/-- src/app.py line 81: total_precip = df["precipitation"].sum(). -/
def total_precip (df : List WeatherRecord) : ℚ :=
  (df.map (fun r => r.precipitation)).sum

/-- src/app.py line 89: avg_wind = df["wind"].mean(). -/
def avg_wind (df : List WeatherRecord) : ℚ :=
  mean (df.map (fun r => r.wind))

/-- src/app.py line 97: rainy_days = len(df[df["precipitation"] > 0]). -/
def rainy_days (df : List WeatherRecord) : Nat :=
  (df.filter (fun r => decide (0 < r.precipitation))).length

/-- src/app.py line 98: total_days = len(df). -/
def total_days (df : List WeatherRecord) : Nat := df.length

/-- src/app.py line 110: weather_counts = df["weather"].value_counts():
one (label, count) row per distinct weather label of df.  value_counts
orders rows by descending count; no property here depends on row order,
so rows are listed in first-appearance order of the label. -/
def weather_counts (df : List WeatherRecord) : List (String × Nat) :=
  ((df.map (fun r => r.weather)).dedup).map
    (fun c => (c, (df.map (fun r => r.weather)).count c))

/-- Round to the nearest integer, ties to even (the rounding of
numpy/pandas .round). -/
def roundHalfEven (q : ℚ) : ℤ :=
  if q - ⌊q⌋ < 1/2 then ⌊q⌋
  else if 1/2 < q - ⌊q⌋ then ⌊q⌋ + 1
  else if ⌊q⌋ % 2 = 0 then ⌊q⌋ else ⌊q⌋ + 1

/-- pandas .round(1): round to one decimal place. -/
def roundTo1 (q : ℚ) : ℚ := (roundHalfEven (10 * q) : ℚ) / 10

/-- src/app.py line 137: weather_counts["percentage"] =
(weather_counts["count"] / total_days * 100).round(1); the breakdown rows
with their rounded percentage column. -/
def weather_breakdown (df : List WeatherRecord) : List (String × Nat × ℚ) :=
  (weather_counts df).map
    (fun p => (p.1, p.2, roundTo1 ((p.2 : ℚ) / (total_days df : ℚ) * 100)))

/-- Sum of the count column of the breakdown. -/
def breakdownCountSum (df : List WeatherRecord) : Nat :=
  ((weather_counts df).map (fun p => p.2)).sum

/-- Sum of the rounded percentage column of the breakdown. -/
def breakdownPctSum (df : List WeatherRecord) : ℚ :=
  ((weather_breakdown df).map (fun p => p.2.2)).sum

/-- Mean of the last (up to) window elements of xs: pandas
rolling(window, min_periods=1).mean at the final position of xs. -/
def trailingMean (window : Nat) (xs : List ℚ) : ℚ :=
  mean (xs.reverse.take window)

/-- One output per record, walking the date-sorted frame left to right:
the value at a record r is the trailing mean of wind over the records of
r's year seen so far (r included).  This is
groupby(year)["wind"].transform(rolling(window, min_periods=1).mean)
realigned to frame order. -/
def rollAux (window : Nat) (seen : List WeatherRecord) :
    List WeatherRecord → List ℚ
  | [] => []
  | r :: rest =>
      trailingMean window
        (((seen ++ [r]).filter
            (fun s => decide (s.date.year = r.date.year))).map
          (fun s => s.wind))
        :: rollAux window (seen ++ [r]) rest

/-- src/app.py line 211: df_sorted = df.sort_values("date").  Dates are
unique per record, so any correct sort yields this order. -/
def sortByDate (l : List WeatherRecord) : List WeatherRecord :=
  List.insertionSort recLe l

/-- src/app.py lines 211-214: sort by date, then per-year trailing
rolling mean of wind, one value per record in sorted-frame order. -/
def rolling_wind_average (df : List WeatherRecord) (window : Nat) : List ℚ :=
  rollAux window [] (sortByDate df)

/-- src/app.py line 212: the wind_avg_7d column (window fixed at 7). -/
def wind_avg_7d (df : List WeatherRecord) : List ℚ :=
  rolling_wind_average df 7

/-- The guard message of src/app.py line 59. -/
def emptySelectionWarning : String :=
  "Please select at least one year to view the data."

/-- The plain-data outputs of the dashboard body (everything computed
after the guard clause). -/
structure AggregateResult where
  avg_temp : ℚ
  total_precip : ℚ
  avg_wind : ℚ
  rainy_days : Nat
  total_days : Nat
  weather_breakdown : List (String × Nat × ℚ)
  wind_avg_7d : List ℚ
deriving DecidableEq

/-- src/app.py lines 58-62 and onward: warn and stop when no year is
selected, otherwise filter and compute every aggregate. -/
def runDashboard (full_df : List WeatherRecord) (selected_years : List Nat) :
    Except String AggregateResult :=
  if selected_years = [] then Except.error emptySelectionWarning
  else
    let df := filter_by_years full_df selected_years
    Except.ok
      ⟨avg_temp df, total_precip df, avg_wind df, rainy_days df,
        total_days df, weather_breakdown df, wind_avg_7d df⟩

/-! ### Concrete datasets used as witnesses and counterexamples -/

/-- The two-record 2012 scenario from the spec (section 8). -/
def specScenario : List WeatherRecord :=
  [⟨⟨2012, 1, 1⟩, 0, 10, 2, 3, "sun"⟩,
   ⟨⟨2012, 1, 2⟩, 5, 8, 1, 5, "rain"⟩]

/-- Six days of 2012 with six distinct weather labels (the label set is
open per the data model, so six categories can occur). -/
def sixWeather : List WeatherRecord :=
  [⟨⟨2012, 1, 1⟩, 0, 0, 0, 0, "sun"⟩,
   ⟨⟨2012, 1, 2⟩, 0, 0, 0, 0, "rain"⟩,
   ⟨⟨2012, 1, 3⟩, 0, 0, 0, 0, "snow"⟩,
   ⟨⟨2012, 1, 4⟩, 0, 0, 0, 0, "fog"⟩,
   ⟨⟨2012, 1, 5⟩, 0, 0, 0, 0, "drizzle"⟩,
   ⟨⟨2012, 1, 6⟩, 0, 0, 0, 0, "cloudy"⟩]

/-! ### General helper lemmas -/

theorem list_sum_sub {α : Type} (f g : α → ℚ) (l : List α) :
    (l.map f).sum - (l.map g).sum = (l.map (fun a => f a - g a)).sum := by
  induction l with
  | nil => simp
  | cons a t ih =>
      simp only [List.map_cons, List.sum_cons]
      rw [← ih]
      ring

theorem list_abs_sum_le (l : List ℚ) :
    |l.sum| ≤ (l.map (fun x => |x|)).sum := by
  induction l with
  | nil => simp
  | cons a t ih =>
      simp only [List.map_cons, List.sum_cons]
      calc |a + t.sum| ≤ |a| + |t.sum| := abs_add _ _
        _ ≤ |a| + (t.map (fun x => |x|)).sum := by linarith

theorem roundHalfEven_abs (q : ℚ) : |(roundHalfEven q : ℚ) - q| ≤ 1/2 := by
  have h1 : ((⌊q⌋ : ℚ)) ≤ q := Int.floor_le q
  have h2 : q < (⌊q⌋ : ℚ) + 1 := Int.lt_floor_add_one q
  unfold roundHalfEven
  split_ifs with hlt hgt heven
  · rw [abs_sub_comm, abs_of_nonneg (by linarith)]
    linarith
  · push_cast
    rw [abs_of_nonneg (by linarith)]
    linarith
  · have hf : q - (⌊q⌋ : ℚ) = 1/2 := le_antisymm (not_lt.mp hgt) (not_lt.mp hlt)
    rw [abs_sub_comm, abs_of_nonneg (by linarith)]
    linarith
  · have hf : q - (⌊q⌋ : ℚ) = 1/2 := le_antisymm (not_lt.mp hgt) (not_lt.mp hlt)
    push_cast
    rw [abs_of_nonneg (by linarith)]
    linarith

theorem roundTo1_abs (q : ℚ) : |roundTo1 q - q| ≤ 1/20 := by
  have h := roundHalfEven_abs (10 * q)
  unfold roundTo1
  have heq : (roundHalfEven (10 * q) : ℚ) / 10 - q
      = ((roundHalfEven (10 * q) : ℚ) - 10 * q) / 10 := by ring
  rw [heq, abs_div]
  rw [show |(10 : ℚ)| = 10 by norm_num]
  linarith

/-! ### Claims -/

/-- C1: filtering a dataset by a set of years yields exactly the records
whose calendar year is in the set, in the original relative order. -/
theorem claim_C1_filter_by_years (D : List WeatherRecord) (Y : List Nat) :
    List.Sublist (filter_by_years D Y) D ∧
    ∀ r : WeatherRecord, r ∈ filter_by_years D Y ↔ r ∈ D ∧ r.date.year ∈ Y := by
  constructor
  · exact List.filter_sublist D
  · intro r
    simp [filter_by_years, List.mem_filter]

/-- C3: total_days is the size of the filtered set and also the sum of
the per-category counts of the weather breakdown. -/
theorem claim_C3_total_day_count (D : List WeatherRecord) (Y : List Nat) :
    total_days (filter_by_years D Y) = (filter_by_years D Y).length ∧
    breakdownCountSum (filter_by_years D Y) = total_days (filter_by_years D Y) := by
  refine ⟨rfl, ?_⟩
  simp only [breakdownCountSum, weather_counts, total_days, List.map_map,
    Function.comp_def]
  rw [List.sum_map_count_dedup_eq_length]
  exact List.length_map _ _

/-- C5: the script's mean-of-column-means equals the pooled mean of all
temp_max and temp_min values on every non-empty filtered set, and on the
spec's two-record 2012 scenario it evaluates to 5.25. -/
theorem claim_C5_avg_temp :
    (∀ df : List WeatherRecord, df ≠ [] → avg_temp df = pooled_avg_temp df) ∧
    avg_temp (filter_by_years specScenario [2012]) = 21/4 := by
  constructor
  · intro df h
    have hn : 0 < df.length := List.length_pos.mpr h
    have hn' : ((df.length : ℚ)) ≠ 0 := by
      have h0 : (0:ℚ) < (df.length : ℚ) := by exact_mod_cast hn
      exact h0.ne'
    simp only [avg_temp, pooled_avg_temp, mean, List.length_map,
      List.length_append, List.sum_append, List.sum_cons, List.sum_nil,
      List.length_cons, List.length_nil, add_zero]
    push_cast
    rw [div_add_div_same, div_div]
    congr 1
    ring
  · norm_num [avg_temp, mean, filter_by_years, specScenario]

theorem claim_C5_witness :
    specScenario ≠ [] ∧ avg_temp specScenario = pooled_avg_temp specScenario :=
  ⟨by simp [specScenario], claim_C5_avg_temp.1 specScenario (by simp [specScenario])⟩

/-- C4 fails as stated: on the six-day, six-category 2012 dataset every
category is 1/6 of the days, each percentage rounds from 16.666 up to
16.7, and the rounded percentages sum to 100.2, outside the claimed 0.1
tolerance. -/
theorem claim_C4_counterexample :
    filter_by_years sixWeather [2012] ≠ [] ∧
    ¬ |breakdownPctSum (filter_by_years sixWeather [2012]) - 100| ≤ 1/10 := by
  have h : filter_by_years sixWeather [2012] = sixWeather := by
    simp [filter_by_years, sixWeather]
  constructor
  · rw [h]
    simp [sixWeather]
  · rw [h]
    have hwc : weather_counts sixWeather =
        [("sun", 1), ("rain", 1), ("snow", 1), ("fog", 1),
         ("drizzle", 1), ("cloudy", 1)] := by
      simp +decide [weather_counts, sixWeather, List.dedup]
    have htd : total_days sixWeather = 6 := by simp [total_days, sixWeather]
    have h2 : breakdownPctSum sixWeather = 501/5 := by
      simp only [breakdownPctSum, weather_breakdown, hwc, htd, List.map_cons,
        List.map_nil, List.sum_cons, List.sum_nil]
      norm_num [roundTo1, roundHalfEven]
    rw [h2]
    have h3 : |(501:ℚ)/5 - 100| = 1/5 := by
      rw [show (501:ℚ)/5 - 100 = 1/5 by norm_num]
      rw [abs_of_nonneg (by norm_num : (0:ℚ) ≤ 1/5)]
    rw [h3]
    norm_num

/-- C4 amended: the rounded breakdown percentages sum to 100 within a
tolerance of 0.05 per weather category present (each rounding to one
decimal moves a value by at most 0.05, and the exact percentages sum to
exactly 100); the fixed 0.1 tolerance holds only when few enough
categories occur. -/
theorem claim_C4_pct_sum (df : List WeatherRecord) (h : df ≠ []) :
    |breakdownPctSum df - 100| ≤ ((weather_counts df).length : ℚ) * (1/20) := by
  have hn : 0 < df.length := List.length_pos.mpr h
  have hn' : ((df.length : ℚ)) ≠ 0 := by
    have h0 : (0:ℚ) < (df.length : ℚ) := by exact_mod_cast hn
    exact h0.ne'
  set L := df.map (fun r => r.weather) with hL
  set g := fun c => ((L.count c : ℚ)) / (df.length : ℚ) * 100 with hg
  set f := fun c => roundTo1 (g c) with hf
  have stepA : breakdownPctSum df = (L.dedup.map f).sum := by
    simp only [breakdownPctSum, weather_breakdown, weather_counts,
      total_days, List.map_map, Function.comp_def, hf, hg, hL]
  have hc : (L.dedup.map (fun c => ((L.count c : ℚ)))).sum = (df.length : ℚ) := by
    have h1 := List.sum_map_count_dedup_eq_length L
    have h2 : (L.dedup.map (fun c => ((L.count c : ℚ)))).sum
        = (((L.dedup.map (fun c => L.count c)).sum : ℕ) : ℚ) := by
      rw [Nat.cast_list_sum, List.map_map]
      simp [Function.comp_def]
    rw [h2, h1, hL, List.length_map]
  have hexact : (L.dedup.map g).sum = 100 := by
    have hfun : g = (fun c => ((L.count c : ℚ)) * (100 / (df.length : ℚ))) := by
      funext c
      simp only [hg]
      ring
    rw [hfun, List.sum_map_mul_right, hc]
    field_simp
  have hdiff : breakdownPctSum df - 100
      = (L.dedup.map (fun c => f c - g c)).sum := by
    calc breakdownPctSum df - 100
        = (L.dedup.map f).sum - (L.dedup.map g).sum := by rw [stepA, hexact]
      _ = (L.dedup.map (fun c => f c - g c)).sum := list_sum_sub f g L.dedup
  have habs := list_abs_sum_le (L.dedup.map (fun c => f c - g c))
  have hforall : ∀ x ∈ (L.dedup.map (fun c => f c - g c)).map (fun x => |x|),
      x ≤ 1/20 := by
    intro x hx
    obtain ⟨v, hv, rfl⟩ := List.mem_map.mp hx
    obtain ⟨c, hc2, rfl⟩ := List.mem_map.mp hv
    exact roundTo1_abs (g c)
  have hsum := List.sum_le_card_nsmul
    ((L.dedup.map (fun c => f c - g c)).map (fun x => |x|)) (1/20 : ℚ) hforall
  rw [List.length_map, List.length_map] at hsum
  rw [nsmul_eq_mul] at hsum
  have hlen : ((weather_counts df).length : ℚ) = (L.dedup.length : ℚ) := by
    simp [weather_counts, List.length_map, hL]
  rw [hdiff, hlen]
  calc |(L.dedup.map (fun c => f c - g c)).sum|
      ≤ ((L.dedup.map (fun c => f c - g c)).map (fun x => |x|)).sum := habs
    _ ≤ (L.dedup.length : ℚ) * (1/20) := hsum

theorem claim_C4_witness :
    filter_by_years specScenario [2012] ≠ [] ∧
    |breakdownPctSum (filter_by_years specScenario [2012]) - 100|
      ≤ ((weather_counts (filter_by_years specScenario [2012])).length : ℚ) * (1/20) :=
  ⟨by simp [filter_by_years, specScenario],
   claim_C4_pct_sum _ (by simp [filter_by_years, specScenario])⟩

/-! ### Rolling wind average: structural lemmas -/

theorem rollAux_length (w : Nat) :
    ∀ (l seen : List WeatherRecord), (rollAux w seen l).length = l.length := by
  intro l
  induction l with
  | nil => intro seen; rfl
  | cons r rest ih =>
      intro seen
      simp only [rollAux, List.length_cons, ih]

theorem rollAux_getD (w : Nat) :
    ∀ (l seen : List WeatherRecord) (i : Nat), i < l.length →
      (rollAux w seen l).getD i 0
        = trailingMean w
            (((seen ++ l.take (i+1)).filter
                (fun s => decide (s.date.year = (l.getD i default).date.year))).map
              (fun s => s.wind)) := by
  intro l
  induction l with
  | nil =>
      intro seen i hi
      exact absurd hi (by simp)
  | cons r rest ih =>
      intro seen i hi
      cases i with
      | zero =>
          simp [rollAux, List.take_succ_cons]
      | succ i =>
          have hi2 : i < rest.length := by
            simpa using Nat.lt_of_succ_lt_succ hi
          have h := ih (seen ++ [r]) i hi2
          simp only [rollAux, List.getD_cons_succ, h,
            List.take_succ_cons, List.append_assoc, List.singleton_append]

/-- Per-year rolling means over a single year group: the trailing mean
after each new value, with acc holding the group values already seen. -/
def rollOnGroup (w : Nat) (acc : List ℚ) : List ℚ → List ℚ
  | [] => []
  | x :: xs => trailingMean w (acc ++ [x]) :: rollOnGroup w (acc ++ [x]) xs

/-- The outputs rollAux produces at the records of year y depend only on
the year-y records of seen and of the input, in order. -/
theorem rollAux_year (w : Nat) (y : Nat) :
    ∀ (l seen : List WeatherRecord),
      ((l.zip (rollAux w seen l)).filter
          (fun p => decide (p.1.date.year = y))).map (fun p => p.2)
        = rollOnGroup w
            ((seen.filter (fun s => decide (s.date.year = y))).map (fun s => s.wind))
            ((l.filter (fun s => decide (s.date.year = y))).map (fun s => s.wind)) := by
  intro l
  induction l with
  | nil => intro seen; simp [rollAux, rollOnGroup]
  | cons r rest ih =>
      intro seen
      by_cases hy : r.date.year = y
      · have hfil : ((seen ++ [r]).filter
              (fun s => decide (s.date.year = y))).map (fun s => s.wind)
            = ((seen.filter (fun s => decide (s.date.year = y))).map
                (fun s => s.wind)) ++ [r.wind] := by
          rw [List.filter_append]
          simp [hy]
        simp only [rollAux, List.zip_cons_cons, List.filter_cons, hy,
          decide_eq_true_eq, if_true, List.map_cons]
        rw [ih (seen ++ [r])]
        rw [hfil]
        rfl
      · have hfil : (seen ++ [r]).filter (fun s => decide (s.date.year = y))
            = seen.filter (fun s => decide (s.date.year = y)) := by
          rw [List.filter_append]
          simp [hy]
        simp only [rollAux, List.zip_cons_cons, List.filter_cons, hy,
          decide_eq_true_eq, if_false, List.map_cons]
        rw [ih (seen ++ [r])]
        rw [hfil]

theorem trailingMean_one (xs : List ℚ) (a : ℚ) : trailingMean 1 (xs ++ [a]) = a := by
  simp [trailingMean, mean, List.reverse_append]

theorem rollAux_one :
    ∀ (l seen : List WeatherRecord), rollAux 1 seen l = l.map (fun r => r.wind) := by
  intro l
  induction l with
  | nil => intro seen; rfl
  | cons r rest ih =>
      intro seen
      have hfil : ((seen ++ [r]).filter
            (fun s => decide (s.date.year = r.date.year))).map (fun s => s.wind)
          = ((seen.filter (fun s => decide (s.date.year = r.date.year))).map
              (fun s => s.wind)) ++ [r.wind] := by
        rw [List.filter_append]
        simp
      simp only [rollAux, List.map_cons, ih]
      rw [hfil, trailingMean_one]

/-- The outputs of the wind column at the records of a given year,
aligned with the (sorted) input records. -/
def yearOutputs (l : List WeatherRecord) (w : Nat) (y : Nat) : List ℚ :=
  ((l.zip (rolling_wind_average l w)).filter
      (fun p => decide (p.1.date.year = y))).map (fun p => p.2)

/-- C2: on a date-ordered filtered dataset the wind_avg_7d column has
exactly one value per record, and the value at each record is the mean
of the wind of the up-to-7 most recent records of the same calendar year
(the same-year records among the first i+1, of which the trailing window
of at most 7 is averaged, a minimum window of 1). -/
theorem claim_C2_rolling_wind (l : List WeatherRecord) (h : SortedByDate l) :
    (wind_avg_7d l).length = l.length ∧
    ∀ i, i < l.length →
      (wind_avg_7d l).getD i 0
        = trailingMean 7
            (((l.take (i+1)).filter
                (fun s => decide (s.date.year = (l.getD i default).date.year))).map
              (fun s => s.wind)) := by
  have hs : l.Sorted recLe := h
  unfold wind_avg_7d rolling_wind_average sortByDate
  rw [List.Sorted.insertionSort_eq hs]
  refine ⟨rollAux_length 7 l [], fun i hi => ?_⟩
  simpa using rollAux_getD 7 l [] i hi

theorem claim_C2_witness :
    SortedByDate specScenario ∧
    ((wind_avg_7d specScenario).length = specScenario.length ∧
      ∀ i, i < specScenario.length →
        (wind_avg_7d specScenario).getD i 0
          = trailingMean 7
              (((specScenario.take (i+1)).filter
                  (fun s => decide
                    (s.date.year = (specScenario.getD i default).date.year))).map
                (fun s => s.wind))) :=
  ⟨by decide, claim_C2_rolling_wind specScenario (by decide)⟩

/-- C6: two date-ordered filtered datasets that agree on the records of
year y (and may differ arbitrarily elsewhere) get identical rolling wind
outputs at every record of year y: no smoothing crosses a year boundary. -/
theorem claim_C6_no_cross_year (l1 l2 : List WeatherRecord) (y : Nat)
    (h1 : SortedByDate l1) (h2 : SortedByDate l2)
    (h : l1.filter (fun s => decide (s.date.year = y))
       = l2.filter (fun s => decide (s.date.year = y))) :
    yearOutputs l1 7 y = yearOutputs l2 7 y := by
  have hs1 : l1.Sorted recLe := h1
  have hs2 : l2.Sorted recLe := h2
  unfold yearOutputs rolling_wind_average sortByDate
  rw [List.Sorted.insertionSort_eq hs1, List.Sorted.insertionSort_eq hs2,
    rollAux_year, rollAux_year, h]

/-- Two datasets with the same single 2013 record but different 2012
records, for the C6 witness. -/
def windA : List WeatherRecord :=
  [⟨⟨2012, 1, 1⟩, 0, 0, 0, 3, "sun"⟩, ⟨⟨2013, 1, 1⟩, 0, 0, 0, 9, "sun"⟩]

def windB : List WeatherRecord :=
  [⟨⟨2012, 2, 1⟩, 0, 0, 0, 100, "rain"⟩, ⟨⟨2013, 1, 1⟩, 0, 0, 0, 9, "sun"⟩]

theorem claim_C6_witness :
    (SortedByDate windA ∧ SortedByDate windB ∧
      windA.filter (fun s => decide (s.date.year = 2013))
        = windB.filter (fun s => decide (s.date.year = 2013))) ∧
    yearOutputs windA 7 2013 = yearOutputs windB 7 2013 :=
  ⟨⟨by decide, by decide, by simp [windA, windB]⟩,
   claim_C6_no_cross_year windA windB 2013 (by decide) (by decide)
     (by simp [windA, windB])⟩

/-- C7: with window 1 the rolling wind average of a date-ordered
filtered dataset returns each record's own wind value unchanged. -/
theorem claim_C7_window_one (l : List WeatherRecord) (h : SortedByDate l) :
    rolling_wind_average l 1 = l.map (fun r => r.wind) := by
  have hs : l.Sorted recLe := h
  unfold rolling_wind_average sortByDate
  rw [List.Sorted.insertionSort_eq hs]
  exact rollAux_one l []

theorem claim_C7_witness :
    SortedByDate specScenario ∧
    rolling_wind_average specScenario 1 = specScenario.map (fun r => r.wind) :=
  ⟨by decide, claim_C7_window_one specScenario (by decide)⟩

/-- C8: with an empty year selection the dashboard stops at the guard
with the warning; no filtering happens and no aggregate is computed. -/
theorem claim_C8_empty_selection_stops (full_df : List WeatherRecord) :
    runDashboard full_df [] = Except.error emptySelectionWarning := by
  simp [runDashboard]

/-- A dataset whose only record is in 2012, used to drive the pipeline
into the empty-filtrate state. -/
def lone2012 : List WeatherRecord :=
  [⟨⟨2012, 1, 1⟩, 0, 10, 2, 3, "sun"⟩]

/-- C9, behaviour at the failing input: selecting a year absent from the
dataset passes the guard, the filtered set is empty, total_days is 0 and
the breakdown is empty — and the mean-based metrics fall through to the
degenerate 0/0 value (0 in this rational model; NaN or a
ZeroDivisionError crash in the script), not to any documented policy. -/
theorem claim_C9_empty_filtrate :
    runDashboard lone2012 [2013]
      = Except.ok ⟨avg_temp [], total_precip [], avg_wind [], rainy_days [],
          total_days [], weather_breakdown [], wind_avg_7d []⟩ ∧
    filter_by_years lone2012 [2013] = [] ∧
    total_days (filter_by_years lone2012 [2013]) = 0 ∧
    weather_counts (filter_by_years lone2012 [2013]) = [] ∧
    weather_breakdown (filter_by_years lone2012 [2013]) = [] ∧
    avg_wind (filter_by_years lone2012 [2013]) = 0 ∧
    avg_temp (filter_by_years lone2012 [2013]) = 0 := by
  have h : filter_by_years lone2012 [2013] = [] := by
    simp [filter_by_years, lone2012]
  refine ⟨?_, h, ?_, ?_, ?_, ?_, ?_⟩
  · simp only [runDashboard, if_neg (by simp : ¬([2013] : List Nat) = []), h]
  · rw [h]; rfl
  · rw [h]; rfl
  · rw [h]; rfl
  · rw [h]; simp [avg_wind, mean]
  · rw [h]; simp [avg_temp, mean]

/-- C10: the selectable years are the years present in the dataset, so
any non-empty selection drawn from them filters to a non-empty set and
total_days is positive (the rainy-day and breakdown percentages never
divide by zero). -/
theorem claim_C10_guarded_selection (d : List WeatherRecord) (sel : List Nat)
    (hne : sel ≠ []) (hsub : ∀ y ∈ sel, y ∈ YEARS d) :
    filter_by_years d sel ≠ [] ∧ 0 < total_days (filter_by_years d sel) := by
  obtain ⟨y, hy⟩ := List.exists_mem_of_ne_nil sel hne
  have hyY : y ∈ YEARS d := hsub y hy
  have hyded : y ∈ (d.map (fun r => r.date.year)).dedup := by
    have hperm := List.perm_insertionSort (fun a b => a ≤ b)
      ((d.map (fun r => r.date.year)).dedup)
    exact hperm.mem_iff.mp hyY
  have hymem : y ∈ d.map (fun r => r.date.year) := List.mem_dedup.mp hyded
  obtain ⟨r, hr, hry⟩ := List.mem_map.mp hymem
  have hrf : r ∈ filter_by_years d sel := by
    unfold filter_by_years
    rw [List.mem_filter]
    refine ⟨hr, ?_⟩
    simp only [decide_eq_true_eq, hry]
    exact hy
  refine ⟨List.ne_nil_of_mem hrf, ?_⟩
  exact List.length_pos.mpr (List.ne_nil_of_mem hrf)

theorem claim_C10_witness :
    (([2012] : List Nat) ≠ [] ∧ (∀ y ∈ ([2012] : List Nat), y ∈ YEARS lone2012)) ∧
    (filter_by_years lone2012 [2012] ≠ [] ∧
      0 < total_days (filter_by_years lone2012 [2012])) :=
  ⟨⟨by decide, by decide⟩,
   claim_C10_guarded_selection lone2012 [2012] (by decide) (by decide)⟩
